import Mathlib

/-!
Verification of the FinalFormatter input-classification and request-assembly
pipeline, shallowly embedded from the three sources of the repository:

* `src/server.js` — Express route `POST /api/format` (server pipeline);
* `src/unnamed/part_000` — a second Express server whose `/api/format`
  handler has the identical guard order, MIME dispatch and part assembly;
* `src/unnamed/part_001` — the React client `handleFormat` (client
  pipeline), including `fileToBase64`.

Bytes are modelled as `Nat` values (`< 256` where it matters), binary buffers
as `List Nat`.  JavaScript string truthiness (`if (x)`) is `jsTruthy`.  The
two external collaborators — DOCX extraction (`mammoth.extractRawText`) and
the model call (`generateContent`) — are parameters of the pipeline, and the
pipeline additionally returns the list of collaborator calls it performed,
in order, so "never contacts a collaborator" is the trace being empty.
-/

/-- One unit of the model-facing payload: `{ text }` or
`{ inlineData: { mimeType, data } }` as pushed onto `parts` in the sources. -/
inductive ContentPart where
  | text (text : String)
  | inlineData (mimeType : String) (data : String)
deriving DecidableEq, Repr

/-- The error kinds of the pipeline (spec §7).  Each constructor corresponds
to one early-return / throw in the sources: missing instructions, missing
content, unsupported file type, and empty model response. -/
inductive PipelineError where
  | missingInstructions
  | missingContent
  | unsupportedMediaType
  | emptyModelResponse
deriving DecidableEq, Repr

/-- A collaborator invocation recorded by the instrumented pipeline:
`extraction` is a `mammoth.extractRawText` call on a buffer, and
`generateContent` is the model call on an assembled parts list. -/
inductive CollabCall where
  | extraction (buffer : List Nat)
  | generateContent (parts : List ContentPart)
deriving DecidableEq, Repr

/-- JavaScript truthiness of an optional string: `undefined` and `""` are
falsy, every other string is truthy. -/
def jsTruthy : Option String → Bool
  | none => false
  | some s => s ≠ ""

/-- JavaScript `String.prototype.startsWith`, at the character level:
it holds when the characters of `pre` are a prefix of those of `s`. -/
def jsStartsWith (s pre : String) : Bool :=
  List.isPrefixOf pre.data s.data

/-- JavaScript `String.prototype.trim`: remove leading and trailing
whitespace characters. -/
def jsTrim (s : String) : String :=
  String.mk (((s.data.dropWhile Char.isWhitespace).reverse.dropWhile
    Char.isWhitespace).reverse)

/-- The OOXML word-processing MIME type dispatched to DOCX extraction. -/
def docxMime : String :=
  "application/vnd.openxmlformats-officedocument.wordprocessingml.document"

/-- A multipart upload as multer presents it to the server handler:
`file.mimetype` and `file.buffer`. -/
structure UploadedFile where
  mimetype : String
  buffer : List Nat
deriving DecidableEq, Repr

/-- The inputs of the server handler: `req.body.content`, `req.body.instructions`
(absent fields are `none`) and `req.file`. -/
structure ServerRequest where
  content : Option String
  instructions : Option String
  file : Option UploadedFile
deriving DecidableEq, Repr

/- ----------------------------------------------------------------- -/
/- Base64, modelling the Buffer-to-base64 conversion (server) and the
   `FileReader.readAsDataURL` payload split off by `fileToBase64`
   (client): standard alphabet, `=` padding.                          -/
/- ----------------------------------------------------------------- -/

/-- The standard base64 alphabet, index `n` holding the digit for `n`. -/
def b64Alphabet : List Char :=
  ['A','B','C','D','E','F','G','H','I','J','K','L','M',
   'N','O','P','Q','R','S','T','U','V','W','X','Y','Z',
   'a','b','c','d','e','f','g','h','i','j','k','l','m',
   'n','o','p','q','r','s','t','u','v','w','x','y','z',
   '0','1','2','3','4','5','6','7','8','9','+','/']

/-- The base64 digit for a 6-bit value. -/
def b64Char (n : Nat) : Char := b64Alphabet.getD n 'A'

/-- The 6-bit value of a base64 digit. -/
def b64Val (c : Char) : Nat := b64Alphabet.indexOf c

/-- Base64-encode a byte list, three bytes to four digits, padding the final
one- or two-byte group with `=`. -/
def b64EncodeChars : List Nat → List Char
  | [] => []
  | [b0] => [b64Char (b0 / 4), b64Char (b0 % 4 * 16), '=', '=']
  | [b0, b1] =>
      [b64Char (b0 / 4), b64Char (b0 % 4 * 16 + b1 / 16), b64Char (b1 % 16 * 4), '=']
  | b0 :: b1 :: b2 :: rest =>
      b64Char (b0 / 4) :: b64Char (b0 % 4 * 16 + b1 / 16) ::
      b64Char (b1 % 16 * 4 + b2 / 64) :: b64Char (b2 % 64) :: b64EncodeChars rest

/-- Base64-decode a digit list, four digits to three bytes, `=` padding
cutting the final group short. -/
def b64DecodeChars : List Char → List Nat
  | c0 :: c1 :: c2 :: c3 :: rest =>
      if c2 = '=' then [b64Val c0 * 4 + b64Val c1 / 16]
      else if c3 = '=' then
        [b64Val c0 * 4 + b64Val c1 / 16, b64Val c1 % 16 * 16 + b64Val c2 / 4]
      else
        (b64Val c0 * 4 + b64Val c1 / 16) ::
        (b64Val c1 % 16 * 16 + b64Val c2 / 4) ::
        (b64Val c2 % 4 * 64 + b64Val c3) :: b64DecodeChars rest
  | _ => []

/-- The server-side base64 conversion of the uploaded buffer. -/
def base64Encode (bytes : List Nat) : String := String.mk (b64EncodeChars bytes)

/-- Base64 decoding of a string, for the round-trip property. -/
def base64Decode (s : String) : List Nat := b64DecodeChars s.data

/-- The client helper `fileToBase64`: reading the file as a data URL and
splitting off the `data:mime;base64,` prefix yields the standard base64
encoding of the file bytes. -/
def fileToBase64 (bytes : List Nat) : String := base64Encode bytes

/- ----------------------------------------------------------------- -/
/- Server pipeline (src/server.js lines 52–115; src/unnamed/part_000
   lines 66–131 is logic-identical).                                  -/
/- ----------------------------------------------------------------- -/

/-- The part-assembly stage of the server handler, up to but not including
the model call: the `!instructions` guard, the instruction part, then the
file/content branching of `src/server.js` lines 57–97.  `extractRawText`
and `utf8ToString` stand for `mammoth.extractRawText` and
the UTF-8 buffer decoding.  Returns the result together with the list of
collaborator calls made. -/
def assembleParts (req : ServerRequest) (extractRawText : List Nat → String)
    (utf8ToString : List Nat → String) :
    Except PipelineError (List ContentPart) × List CollabCall :=
  if jsTruthy req.instructions = false then
    (Except.error PipelineError.missingInstructions, [])
  else
    let instrPart := ContentPart.text ("INSTRUCTIONS:\n" ++ req.instructions.getD "")
    match req.file with
    | some file =>
        if file.mimetype = "application/pdf" || jsStartsWith file.mimetype "image/" then
          (Except.ok [instrPart,
            ContentPart.inlineData file.mimetype (base64Encode file.buffer)], [])
        else if file.mimetype = docxMime then
          (Except.ok [instrPart,
            ContentPart.text ("DOCUMENT CONTENT:\n" ++ extractRawText file.buffer)],
           [CollabCall.extraction file.buffer])
        else if file.mimetype = "text/plain" then
          (Except.ok [instrPart,
            ContentPart.text ("DOCUMENT CONTENT:\n" ++ utf8ToString file.buffer)], [])
        else
          (Except.error PipelineError.unsupportedMediaType, [])
    | none =>
        if jsTruthy req.content then
          (Except.ok [instrPart,
            ContentPart.text ("DOCUMENT CONTENT:\n" ++ req.content.getD "")], [])
        else
          (Except.error PipelineError.missingContent, [])

/-- The response-validation stage: `response.text` may be absent or empty
(falsy), in which case the handler throws `"AI returned empty response."`;
otherwise the response body is `{ formattedContent: formattedText }`,
the model output passed through unchanged. -/
def responseValidator (responseText : Option String) : Except PipelineError String :=
  if jsTruthy responseText then Except.ok (responseText.getD "")
  else Except.error PipelineError.emptyModelResponse

/-- The whole server handler: assemble the parts, and when assembly
succeeds call the model on them and validate its output.  The second
component is the ordered list of collaborator calls performed. -/
def serverPipeline (req : ServerRequest)
    (extractRawText utf8ToString : List Nat → String)
    (model : List ContentPart → Option String) :
    Except PipelineError String × List CollabCall :=
  match assembleParts req extractRawText utf8ToString with
  | (Except.error e, calls) => (Except.error e, calls)
  | (Except.ok parts, calls) =>
      (responseValidator (model parts), calls ++ [CollabCall.generateContent parts])

/- ----------------------------------------------------------------- -/
/- Client pipeline (src/unnamed/part_001, handleFormat).              -/
/- ----------------------------------------------------------------- -/

/-- A browser `File` object as `handleFormat` uses it: `file.type` and the
bytes behind `arrayBuffer()` / `text()` / `FileReader`. -/
structure ClientFile where
  type : String
  bytes : List Nat
deriving DecidableEq, Repr

/-- The client component state feeding `handleFormat`: the paste textarea,
the instructions textarea, and the selected file (if any). -/
structure ClientState where
  textInput : String
  instructions : String
  file : Option ClientFile
deriving DecidableEq, Repr

/-- The part-assembly stage of the client `handleFormat`: the
`!textInput.trim() && !file` guard, the `!instructions.trim()` guard, the
instruction part, then the same MIME dispatch as the server, with
`fileToBase64`, browser-side `mammoth.extractRawText`, and `file.text()`
(UTF-8 decoding) on the three file branches and the raw `textInput`
otherwise. -/
def handleFormatAssemble (st : ClientState)
    (extractRawText : List Nat → String) (utf8ToString : List Nat → String) :
    Except PipelineError (List ContentPart) × List CollabCall :=
  if jsTrim st.textInput = "" && st.file.isNone then
    (Except.error PipelineError.missingContent, [])
  else if jsTrim st.instructions = "" then
    (Except.error PipelineError.missingInstructions, [])
  else
    let instrPart := ContentPart.text ("INSTRUCTIONS:\n" ++ st.instructions)
    match st.file with
    | some file =>
        if file.type = "application/pdf" || jsStartsWith file.type "image/" then
          (Except.ok [instrPart,
            ContentPart.inlineData file.type (fileToBase64 file.bytes)], [])
        else if file.type = docxMime then
          (Except.ok [instrPart,
            ContentPart.text ("DOCUMENT CONTENT:\n" ++ extractRawText file.bytes)],
           [CollabCall.extraction file.bytes])
        else if file.type = "text/plain" then
          (Except.ok [instrPart,
            ContentPart.text ("DOCUMENT CONTENT:\n" ++ utf8ToString file.bytes)], [])
        else
          (Except.error PipelineError.unsupportedMediaType, [])
    | none =>
        (Except.ok [instrPart,
          ContentPart.text ("DOCUMENT CONTENT:\n" ++ st.textInput)], [])

/-- The whole client `handleFormat`: assemble, call the model, and accept
its output exactly when `response.text` is truthy (`if (response.text)`),
otherwise fail with the empty-response error. -/
def handleFormat (st : ClientState)
    (extractRawText utf8ToString : List Nat → String)
    (model : List ContentPart → Option String) :
    Except PipelineError String × List CollabCall :=
  match handleFormatAssemble st extractRawText utf8ToString with
  | (Except.error e, calls) => (Except.error e, calls)
  | (Except.ok parts, calls) =>
      (responseValidator (model parts), calls ++ [CollabCall.generateContent parts])

/- ----------------------------------------------------------------- -/
/- A common input shape for comparing the two pipelines.              -/
/- ----------------------------------------------------------------- -/

/-- The artifact of one request: pasted text, or a file with a declared MIME
type and its bytes (spec §3 `InputArtifact`). -/
inductive InputArtifact where
  | pasted (value : String)
  | fileInput (mimeType : String) (bytes : List Nat)
deriving DecidableEq, Repr

/-- Present an artifact plus instructions to the server handler: pasted
text arrives as `req.body.content`, a file as `req.file`. -/
def toServerRequest (instructions : String) : InputArtifact → ServerRequest
  | InputArtifact.pasted s => ⟨some s, some instructions, none⟩
  | InputArtifact.fileInput m b => ⟨none, some instructions, some ⟨m, b⟩⟩

/-- Present the same artifact plus instructions to the client: pasted text
fills the textarea (file cleared), a file clears the textarea. -/
def toClientState (instructions : String) : InputArtifact → ClientState
  | InputArtifact.pasted s => ⟨s, instructions, none⟩
  | InputArtifact.fileInput m b => ⟨"", instructions, some ⟨m, b⟩⟩

/-- The recognized MIME set at the dispatch: PDF, any `image/*`, the OOXML
word-processing type, or plain text. -/
def recognizedMime (m : String) : Bool :=
  m = "application/pdf" || jsStartsWith m "image/" || m = docxMime || m = "text/plain"

/- ----------------------------------------------------------------- -/
/- Base64 round-trip.                                                 -/
/- ----------------------------------------------------------------- -/

/-- Decoding a base64 digit recovers the 6-bit value it encodes. -/
theorem b64Val_b64Char {n : Nat} (h : n < 64) : b64Val (b64Char n) = n := by
  have : ∀ m : Fin 64, b64Val (b64Char m.val) = m.val := by decide
  exact this ⟨n, h⟩

/-- No 6-bit value encodes to the padding character. -/
theorem b64Char_ne_pad {n : Nat} (h : n < 64) : b64Char n ≠ '=' := by
  have : ∀ m : Fin 64, b64Char m.val ≠ '=' := by decide
  exact this ⟨n, h⟩

/-- Decoding undoes encoding on any list of genuine bytes (each `< 256`). -/
theorem b64DecodeChars_b64EncodeChars (bytes : List Nat)
    (h : ∀ b ∈ bytes, b < 256) :
    b64DecodeChars (b64EncodeChars bytes) = bytes := by
  induction bytes using b64EncodeChars.induct with
  | case1 => rfl
  | case2 b0 =>
      have h0 : b0 < 256 := h b0 (by simp)
      simp only [b64EncodeChars, b64DecodeChars]
      rw [if_true, b64Val_b64Char (by omega), b64Val_b64Char (by omega)]
      simp only [List.cons.injEq, and_true]
      omega
  | case3 b0 b1 =>
      have h0 : b0 < 256 := h b0 (by simp)
      have h1 : b1 < 256 := h b1 (by simp)
      simp only [b64EncodeChars, b64DecodeChars]
      rw [if_neg (b64Char_ne_pad (show b1 % 16 * 4 < 64 by omega)), if_true,
        b64Val_b64Char (by omega), b64Val_b64Char (by omega),
        b64Val_b64Char (by omega)]
      simp only [List.cons.injEq, and_true]
      omega
  | case4 b0 b1 b2 rest ih =>
      have h0 : b0 < 256 := h b0 (by simp)
      have h1 : b1 < 256 := h b1 (by simp)
      have h2 : b2 < 256 := h b2 (by simp)
      have hrest : ∀ b ∈ rest, b < 256 := fun b hb => h b (by simp [hb])
      simp only [b64EncodeChars, b64DecodeChars]
      rw [if_neg (b64Char_ne_pad (show b1 % 16 * 4 + b2 / 64 < 64 by omega)),
        if_neg (b64Char_ne_pad (show b2 % 64 < 64 by omega)),
        b64Val_b64Char (by omega), b64Val_b64Char (by omega),
        b64Val_b64Char (by omega), b64Val_b64Char (by omega), ih hrest]
      simp only [List.cons.injEq, and_true]
      omega

/-- String-level round trip: decoding `base64Encode` recovers the bytes. -/
theorem base64Decode_base64Encode (bytes : List Nat) (h : ∀ b ∈ bytes, b < 256) :
    base64Decode (base64Encode bytes) = bytes :=
  b64DecodeChars_b64EncodeChars bytes h

/- ----------------------------------------------------------------- -/
/- Claim theorems.                                                    -/
/- ----------------------------------------------------------------- -/

/-- Claim C9: the response validator succeeds exactly on a non-empty model
output string, failing with the empty-response error otherwise, and on
success returns the model output unchanged. -/
theorem responseValidator_ok_iff_nonempty :
    ∀ responseText : Option String,
      (∀ s, responseValidator responseText = Except.ok s ↔
        responseText = some s ∧ s ≠ "") ∧
      (responseValidator responseText =
          Except.error PipelineError.emptyModelResponse ↔
        responseText = none ∨ responseText = some "") := by
  intro responseText
  cases responseText with
  | none => simp [responseValidator, jsTruthy]
  | some t =>
      constructor
      · intro s
        by_cases ht : t = "" <;>
          simp [responseValidator, jsTruthy, ht] <;> aesop
      · by_cases ht : t = "" <;> simp [responseValidator, jsTruthy, ht]

/-- Claim C3 counterexample: a request carrying both a plain-text file and
non-empty pasted content is not rejected — the core accepts it and builds
the payload from the file, so it does not independently validate the
single-artifact invariant. -/
theorem file_and_content_together_accepted :
    (assembleParts ⟨some "pasted text", some "instr", some ⟨"text/plain", [104, 105]⟩⟩
        (fun _ => "") (fun _ => "hi")).1 =
      Except.ok [ContentPart.text "INSTRUCTIONS:\ninstr",
        ContentPart.text "DOCUMENT CONTENT:\nhi"] := by
  rfl

/-- Claim C3 (amended): when a file and pasted content arrive together the
core performs no validation of the single-artifact invariant — the file
silently takes precedence and the pasted content is ignored entirely, the
outcome being identical to the same request with no pasted content. -/
theorem file_takes_precedence_over_content
    (content : Option String) (instructions : Option String)
    (file : UploadedFile) (extractRawText utf8ToString : List Nat → String) :
    assembleParts ⟨content, instructions, some file⟩ extractRawText utf8ToString =
      assembleParts ⟨none, instructions, some file⟩ extractRawText utf8ToString := by
  rfl

/-- Claim C10: an empty pasted string with no file is rejected with the
missing-content error exactly as if no artifact had been supplied, while an
empty DOCX extraction result is accepted as valid content. -/
theorem empty_pasted_text_rejected
    (instructions : String) (hins : instructions ≠ "")
    (extractRawText utf8ToString : List Nat → String) (buffer : List Nat) :
    assembleParts ⟨some "", some instructions, none⟩ extractRawText utf8ToString =
        (Except.error PipelineError.missingContent, []) ∧
    assembleParts ⟨none, some instructions, none⟩ extractRawText utf8ToString =
        (Except.error PipelineError.missingContent, []) ∧
    (assembleParts ⟨none, some instructions, some ⟨docxMime, buffer⟩⟩
        (fun _ => "") utf8ToString).1 =
      Except.ok [ContentPart.text ("INSTRUCTIONS:\n" ++ instructions),
        ContentPart.text "DOCUMENT CONTENT:\n"] := by
  refine ⟨?_, ?_, ?_⟩
  · simp [assembleParts, jsTruthy, hins]
  · simp [assembleParts, jsTruthy, hins]
  · have hsw : jsStartsWith
        "application/vnd.openxmlformats-officedocument.wordprocessingml.document"
        "image/" = false := by decide
    simp [assembleParts, jsTruthy, hins, docxMime, hsw]

/-- Claim C10 witness: instantiated at instructions `"format"` and DOCX
buffer `[1, 2]`. -/
theorem empty_pasted_text_rejected_witness :
    ("format" : String) ≠ "" ∧
    assembleParts ⟨some "", some "format", none⟩ (fun _ => "x") (fun _ => "y") =
      (Except.error PipelineError.missingContent, []) :=
  ⟨by decide,
    (empty_pasted_text_rejected "format" (by decide) (fun _ => "x") (fun _ => "y") [1, 2]).1⟩

/-- Claim C1: whenever the request assembly of either pipeline succeeds — on any
modality — the payload is exactly the instruction TextPart (prefixed
`"INSTRUCTIONS:\n"`) at index 0 followed by exactly one content part at
index 1: never zero and never more than one content part. -/
theorem requestPayload_instruction_first_single_content :
    (∀ (req : ServerRequest) (extractRawText utf8ToString : List Nat → String)
        (parts : List ContentPart) (calls : List CollabCall),
      assembleParts req extractRawText utf8ToString = (Except.ok parts, calls) →
      ∃ instr c, parts = [ContentPart.text ("INSTRUCTIONS:\n" ++ instr), c]) ∧
    (∀ (st : ClientState) (extractRawText utf8ToString : List Nat → String)
        (parts : List ContentPart) (calls : List CollabCall),
      handleFormatAssemble st extractRawText utf8ToString = (Except.ok parts, calls) →
      ∃ instr c, parts = [ContentPart.text ("INSTRUCTIONS:\n" ++ instr), c]) := by
  constructor
  · intro req extractRawText utf8ToString parts calls h
    unfold assembleParts at h
    split at h
    · simp at h
    · split at h
      · split at h
        · simp only [Prod.mk.injEq, Except.ok.injEq] at h
          exact ⟨_, _, h.1.symm⟩
        · split at h
          · simp only [Prod.mk.injEq, Except.ok.injEq] at h
            exact ⟨_, _, h.1.symm⟩
          · split at h
            · simp only [Prod.mk.injEq, Except.ok.injEq] at h
              exact ⟨_, _, h.1.symm⟩
            · simp at h
      · split at h
        · simp only [Prod.mk.injEq, Except.ok.injEq] at h
          exact ⟨_, _, h.1.symm⟩
        · simp at h
  · intro st extractRawText utf8ToString parts calls h
    unfold handleFormatAssemble at h
    split at h
    · simp at h
    · split at h
      · simp at h
      · split at h
        · split at h
          · simp only [Prod.mk.injEq, Except.ok.injEq] at h
            exact ⟨_, _, h.1.symm⟩
          · split at h
            · simp only [Prod.mk.injEq, Except.ok.injEq] at h
              exact ⟨_, _, h.1.symm⟩
            · split at h
              · simp only [Prod.mk.injEq, Except.ok.injEq] at h
                exact ⟨_, _, h.1.symm⟩
              · simp at h
        · simp only [Prod.mk.injEq, Except.ok.injEq] at h
          exact ⟨_, _, h.1.symm⟩

/-- Claim C1 witness: the pasted-text modality at concrete inputs, on both
pipelines. -/
theorem requestPayload_instruction_first_single_content_witness :
    ∃ instr c, [ContentPart.text "INSTRUCTIONS:\nmake it nice",
      ContentPart.text "DOCUMENT CONTENT:\nhello"] =
        [ContentPart.text ("INSTRUCTIONS:\n" ++ instr), c] :=
  requestPayload_instruction_first_single_content.1
    ⟨some "hello", some "make it nice", none⟩ (fun _ => "") (fun _ => "")
    [ContentPart.text "INSTRUCTIONS:\nmake it nice",
      ContentPart.text "DOCUMENT CONTENT:\nhello"] [] rfl

/-- Claim C2 counterexample: a request with a `application/zip` file and
absent instructions does not fail with the unsupported-media-type error —
the instructions guard runs first, so it fails with the
missing-instructions error instead. -/
theorem zip_without_instructions_fails_missing_instructions :
    (serverPipeline ⟨none, none, some ⟨"application/zip", [1, 2, 3]⟩⟩
        (fun _ => "") (fun _ => "") (fun _ => some "ok")).1 =
      Except.error PipelineError.missingInstructions ∧
    PipelineError.missingInstructions ≠ PipelineError.unsupportedMediaType := by
  exact ⟨rfl, by decide⟩

/-- Claim C2 (amended): a request carrying a file whose MIME type is outside
the recognized set fails with the unsupported-media-type error whenever
instructions are present; when instructions are absent or empty the
missing-instructions guard fires first instead. -/
theorem unsupported_mime_fails_unsupported_media_type
    (req : ServerRequest) (extractRawText utf8ToString : List Nat → String)
    (model : List ContentPart → Option String) (file : UploadedFile)
    (hfile : req.file = some file)
    (hmime : recognizedMime file.mimetype = false) :
    (jsTruthy req.instructions = true →
      serverPipeline req extractRawText utf8ToString model =
        (Except.error PipelineError.unsupportedMediaType, [])) ∧
    (jsTruthy req.instructions = false →
      serverPipeline req extractRawText utf8ToString model =
        (Except.error PipelineError.missingInstructions, [])) := by
  simp only [recognizedMime, Bool.or_eq_false_iff, decide_eq_false_iff_not] at hmime
  obtain ⟨⟨⟨h1, h2⟩, h3⟩, h4⟩ := hmime
  constructor
  · intro hins
    unfold serverPipeline assembleParts
    rw [hins, hfile]
    simp [h1, h2, h3, h4]
  · intro hins
    unfold serverPipeline assembleParts
    rw [hins]
    simp

/-- Claim C2 (amended) witness: a zip file with instructions present fails
with the unsupported-media-type error, with instructions absent it fails
with the missing-instructions error. -/
theorem unsupported_mime_fails_unsupported_media_type_witness :
    (⟨none, some "fix", some ⟨"application/zip", [1]⟩⟩ : ServerRequest).file =
        some ⟨"application/zip", [1]⟩ ∧
    recognizedMime "application/zip" = false ∧
    serverPipeline ⟨none, some "fix", some ⟨"application/zip", [1]⟩⟩
        (fun _ => "") (fun _ => "") (fun _ => some "ok") =
      (Except.error PipelineError.unsupportedMediaType, []) :=
  ⟨rfl, by decide,
    (unsupported_mime_fails_unsupported_media_type
      ⟨none, some "fix", some ⟨"application/zip", [1]⟩⟩
      (fun _ => "") (fun _ => "") (fun _ => some "ok")
      ⟨"application/zip", [1]⟩ rfl (by decide)).1 (by decide)⟩

/-- Claim C4: for a file classified inline-binary (PDF or `image/*`), the
assembled InlinePart carries exactly the declared MIME type, and
base64-decoding its data — whether produced by the server buffer encoding
or by the client `fileToBase64` — recovers the original file bytes. -/
theorem inlineBinary_base64_roundTrip
    (req : ServerRequest) (extractRawText utf8ToString : List Nat → String)
    (file : UploadedFile)
    (hins : jsTruthy req.instructions = true)
    (hfile : req.file = some file)
    (hmime : file.mimetype = "application/pdf" ∨
      jsStartsWith file.mimetype "image/" = true)
    (hbytes : ∀ b ∈ file.buffer, b < 256) :
    (assembleParts req extractRawText utf8ToString).1 =
      Except.ok [ContentPart.text ("INSTRUCTIONS:\n" ++ req.instructions.getD ""),
        ContentPart.inlineData file.mimetype (base64Encode file.buffer)] ∧
    base64Decode (base64Encode file.buffer) = file.buffer ∧
    base64Decode (fileToBase64 file.buffer) = file.buffer := by
  refine ⟨?_, ?_, ?_⟩
  · unfold assembleParts
    rw [hins, hfile]
    rcases hmime with h | h <;> simp [h]
  · exact base64Decode_base64Encode _ hbytes
  · exact base64Decode_base64Encode _ hbytes

/-- Claim C4 witness: a three-byte `image/png` upload with instructions
present round-trips through the assembled InlinePart. -/
theorem inlineBinary_base64_roundTrip_witness :
    jsTruthy (some "extract text") = true ∧
    (⟨none, some "extract text", some ⟨"image/png", [0, 77, 255]⟩⟩ :
        ServerRequest).file = some ⟨"image/png", [0, 77, 255]⟩ ∧
    base64Decode (base64Encode [0, 77, 255]) = [0, 77, 255] :=
  ⟨by decide, rfl,
    (inlineBinary_base64_roundTrip
      ⟨none, some "extract text", some ⟨"image/png", [0, 77, 255]⟩⟩
      (fun _ => "") (fun _ => "") ⟨"image/png", [0, 77, 255]⟩
      (by decide) rfl (Or.inr (by decide)) (by decide)).2.1⟩

/-- Claim C5 counterexample: whitespace-only (blank but non-empty)
instructions are accepted by the server pipeline — `"INSTRUCTIONS:\n "` is
assembled and the request proceeds, rather than failing with the
missing-instructions error. -/
theorem blank_instructions_accepted_by_server :
    assembleParts ⟨some "hello", some " ", none⟩ (fun _ => "") (fun _ => "") =
      (Except.ok [ContentPart.text "INSTRUCTIONS:\n ",
        ContentPart.text "DOCUMENT CONTENT:\nhello"], []) := by
  rfl

/-- Claim C5 (amended): for every artifact type, absent or empty
instructions make the server pipeline fail with the missing-instructions
error before any extraction call and before any model call (the
collaborator trace is empty); the client pipeline does the same on
trim-blank instructions whenever an artifact is present.  The server,
however, accepts whitespace-only instructions. -/
theorem absent_or_empty_instructions_fail_first
    (req : ServerRequest) (extractRawText utf8ToString : List Nat → String)
    (model : List ContentPart → Option String)
    (hins : jsTruthy req.instructions = false) :
    serverPipeline req extractRawText utf8ToString model =
      (Except.error PipelineError.missingInstructions, []) ∧
    ∀ st : ClientState,
      (jsTrim st.textInput = "" && st.file.isNone) = false →
      jsTrim st.instructions = "" →
      handleFormat st extractRawText utf8ToString model =
        (Except.error PipelineError.missingInstructions, []) := by
  constructor
  · unfold serverPipeline assembleParts
    rw [hins]
    simp
  · intro st hguard hblank
    unfold handleFormat handleFormatAssemble
    simp [hguard, hblank]

/-- Claim C5 (amended) witness: no-instructions server request and
blank-instructions client state, both with a pasted artifact present. -/
theorem absent_or_empty_instructions_fail_first_witness :
    jsTruthy ((⟨some "hello", none, none⟩ : ServerRequest).instructions) = false ∧
    serverPipeline ⟨some "hello", none, none⟩ (fun _ => "") (fun _ => "")
        (fun _ => some "ok") =
      (Except.error PipelineError.missingInstructions, []) ∧
    handleFormat ⟨"hello", " ", none⟩ (fun _ => "") (fun _ => "")
        (fun _ => some "ok") =
      (Except.error PipelineError.missingInstructions, []) :=
  ⟨by decide,
    (absent_or_empty_instructions_fail_first ⟨some "hello", none, none⟩
      (fun _ => "") (fun _ => "") (fun _ => some "ok") (by decide)).1,
    (absent_or_empty_instructions_fail_first ⟨some "hello", none, none⟩
      (fun _ => "") (fun _ => "") (fun _ => some "ok") (by decide)).2
      ⟨"hello", " ", none⟩ (by decide) (by decide)⟩

/-- Claim C6: with instructions present and a file whose MIME type is
outside the recognized set, the server pipeline returns the
unsupported-media-type error with an empty collaborator trace: neither the
extraction collaborator nor the model collaborator is ever invoked. -/
theorem unsupported_mime_contacts_no_collaborator
    (req : ServerRequest) (extractRawText utf8ToString : List Nat → String)
    (model : List ContentPart → Option String) (file : UploadedFile)
    (hins : jsTruthy req.instructions = true)
    (hfile : req.file = some file)
    (hmime : recognizedMime file.mimetype = false) :
    serverPipeline req extractRawText utf8ToString model =
      (Except.error PipelineError.unsupportedMediaType, []) := by
  simp only [recognizedMime, Bool.or_eq_false_iff, decide_eq_false_iff_not] at hmime
  obtain ⟨⟨⟨h1, h2⟩, h3⟩, h4⟩ := hmime
  unfold serverPipeline assembleParts
  rw [hins, hfile]
  simp [h1, h2, h3, h4]

/-- Claim C6 witness: the unsupported `application/zip` upload with
instructions present contacts no collaborator. -/
theorem unsupported_mime_contacts_no_collaborator_witness :
    jsTruthy (some "fix it") = true ∧
    recognizedMime "application/zip" = false ∧
    serverPipeline ⟨none, some "fix it", some ⟨"application/zip", [9, 9]⟩⟩
        (fun _ => "extracted") (fun _ => "utf8") (fun _ => some "out") =
      (Except.error PipelineError.unsupportedMediaType, []) :=
  ⟨by decide, by decide,
    unsupported_mime_contacts_no_collaborator
      ⟨none, some "fix it", some ⟨"application/zip", [9, 9]⟩⟩
      (fun _ => "extracted") (fun _ => "utf8") (fun _ => some "out")
      ⟨"application/zip", [9, 9]⟩ (by decide) rfl (by decide)⟩

/-- Claim C8: a DOCX artifact whose extraction collaborator returns the
empty string still materializes successfully; the content part
`TextPart("DOCUMENT CONTENT:\n")` is forwarded to the model (visible in the
collaborator trace), and the pipeline fails with the empty-response error
exactly when the model output itself is empty or absent — extraction
emptiness never triggers a failure. -/
theorem docx_empty_extraction_succeeds
    (instructions : String) (buffer : List Nat)
    (utf8ToString : List Nat → String)
    (model : List ContentPart → Option String)
    (hins : instructions ≠ "") :
    assembleParts ⟨none, some instructions, some ⟨docxMime, buffer⟩⟩
        (fun _ => "") utf8ToString =
      (Except.ok [ContentPart.text ("INSTRUCTIONS:\n" ++ instructions),
        ContentPart.text "DOCUMENT CONTENT:\n"],
       [CollabCall.extraction buffer]) ∧
    (serverPipeline ⟨none, some instructions, some ⟨docxMime, buffer⟩⟩
        (fun _ => "") utf8ToString model).2 =
      [CollabCall.extraction buffer,
       CollabCall.generateContent [ContentPart.text ("INSTRUCTIONS:\n" ++ instructions),
         ContentPart.text "DOCUMENT CONTENT:\n"]] ∧
    ((serverPipeline ⟨none, some instructions, some ⟨docxMime, buffer⟩⟩
        (fun _ => "") utf8ToString model).1 =
          Except.error PipelineError.emptyModelResponse ↔
      jsTruthy (model [ContentPart.text ("INSTRUCTIONS:\n" ++ instructions),
        ContentPart.text "DOCUMENT CONTENT:\n"]) = false) := by
  have hsw : jsStartsWith
      "application/vnd.openxmlformats-officedocument.wordprocessingml.document"
      "image/" = false := by decide
  have hassemble : assembleParts ⟨none, some instructions, some ⟨docxMime, buffer⟩⟩
      (fun _ => "") utf8ToString =
      (Except.ok [ContentPart.text ("INSTRUCTIONS:\n" ++ instructions),
        ContentPart.text "DOCUMENT CONTENT:\n"],
       [CollabCall.extraction buffer]) := by
    simp [assembleParts, jsTruthy, hins, docxMime, hsw]
  refine ⟨hassemble, ?_, ?_⟩
  · simp [serverPipeline, hassemble]
  · simp only [serverPipeline, hassemble]
    by_cases hm : jsTruthy (model [ContentPart.text ("INSTRUCTIONS:\n" ++ instructions),
        ContentPart.text "DOCUMENT CONTENT:\n"]) = true
    · simp [responseValidator, hm]
    · simp only [Bool.not_eq_true] at hm
      simp [responseValidator, hm]

/-- Claim C8 witness: instructions `"tidy"`, a two-byte DOCX buffer, and a
model stub answering `"OUT"`. -/
theorem docx_empty_extraction_succeeds_witness :
    ("tidy" : String) ≠ "" ∧
    assembleParts ⟨none, some "tidy", some ⟨docxMime, [7, 8]⟩⟩
        (fun _ => "") (fun _ => "") =
      (Except.ok [ContentPart.text "INSTRUCTIONS:\ntidy",
        ContentPart.text "DOCUMENT CONTENT:\n"],
       [CollabCall.extraction [7, 8]]) :=
  ⟨by decide,
    (docx_empty_extraction_succeeds "tidy" [7, 8] (fun _ => "")
      (fun _ => some "OUT") (by decide)).1⟩

/-- Claim C7 counterexample: on the identical input — pasted text
`"hello"`, instructions `" "` — the server pipeline accepts and assembles a
payload while the client pipeline rejects with the missing-instructions
error: the two pipelines are not behaviorally equivalent. -/
theorem server_accepts_client_rejects_blank_instructions :
    (assembleParts (toServerRequest " " (InputArtifact.pasted "hello"))
        (fun _ => "") (fun _ => "")).1 =
      Except.ok [ContentPart.text "INSTRUCTIONS:\n ",
        ContentPart.text "DOCUMENT CONTENT:\nhello"] ∧
    (handleFormatAssemble (toClientState " " (InputArtifact.pasted "hello"))
        (fun _ => "") (fun _ => "")).1 =
      Except.error PipelineError.missingInstructions := by
  exact ⟨rfl, rfl⟩

/-- Claim C7 (amended): on identical inputs whose instructions and pasted
text are not whitespace-only-but-non-empty strings (i.e. each is either
empty or survives trimming), the server and client pipelines make the same
acceptance decision and, on acceptance, assemble the identical ordered
sequence of ContentParts.  The pipelines genuinely diverge on
whitespace-only pasted text or instructions, which the server accepts
(JS truthiness) and the client rejects (trim check). -/
theorem server_client_equivalent_on_nonblank_inputs
    (instructions : String) (artifact : InputArtifact)
    (extractRawText utf8ToString : List Nat → String)
    (hi : instructions = "" ∨ jsTrim instructions ≠ "")
    (ha : ∀ s, artifact = InputArtifact.pasted s → s = "" ∨ jsTrim s ≠ "") :
    ((assembleParts (toServerRequest instructions artifact)
        extractRawText utf8ToString).1).toOption =
      ((handleFormatAssemble (toClientState instructions artifact)
        extractRawText utf8ToString).1).toOption := by
  cases artifact with
  | pasted s =>
      by_cases hs0 : s = ""
      · subst hs0
        by_cases hi0 : instructions = ""
        · subst hi0
          simp [assembleParts, handleFormatAssemble, Except.toOption, fileToBase64, toServerRequest,
            toClientState, jsTruthy, show jsTrim "" = "" from rfl]
        · simp [assembleParts, handleFormatAssemble, Except.toOption, fileToBase64, toServerRequest,
            toClientState, jsTruthy, hi0, show jsTrim "" = "" from rfl]
      · have hst : jsTrim s ≠ "" := (ha s rfl).resolve_left hs0
        by_cases hi0 : instructions = ""
        · subst hi0
          simp [assembleParts, handleFormatAssemble, Except.toOption, fileToBase64, toServerRequest,
            toClientState, jsTruthy, hst, show jsTrim "" = "" from rfl]
        · have hit : jsTrim instructions ≠ "" := hi.resolve_left hi0
          simp [assembleParts, handleFormatAssemble, Except.toOption, fileToBase64, toServerRequest,
            toClientState, jsTruthy, hs0, hst, hi0, hit]
  | fileInput m b =>
      by_cases hi0 : instructions = ""
      · subst hi0
        simp [assembleParts, handleFormatAssemble, Except.toOption, fileToBase64, toServerRequest,
          toClientState, jsTruthy, show jsTrim "" = "" from rfl]
      · have hit : jsTrim instructions ≠ "" := hi.resolve_left hi0
        by_cases hb1 : (m = "application/pdf" || jsStartsWith m "image/") = true
        · simp [assembleParts, handleFormatAssemble, Except.toOption, fileToBase64, toServerRequest,
            toClientState, jsTruthy, hi0, hit, hb1, fileToBase64,
            show jsTrim "" = "" from rfl]
        · by_cases hb2 : m = docxMime
          · simp [assembleParts, handleFormatAssemble, Except.toOption, fileToBase64, toServerRequest,
              toClientState, jsTruthy, hi0, hit, hb1, hb2,
              show jsTrim "" = "" from rfl]
          · by_cases hb3 : m = "text/plain"
            · simp [assembleParts, handleFormatAssemble, Except.toOption, fileToBase64, toServerRequest,
                toClientState, jsTruthy, hi0, hit, hb1, hb2, hb3,
                show jsTrim "" = "" from rfl]
            · simp [assembleParts, handleFormatAssemble, Except.toOption, fileToBase64, toServerRequest,
                toClientState, jsTruthy, hi0, hit, hb1, hb2, hb3,
                show jsTrim "" = "" from rfl]

/-- Claim C7 (amended) witness: pasted `"hello"` with instructions
`"tidy"`, where both pipelines assemble the same accepted payload. -/
theorem server_client_equivalent_on_nonblank_inputs_witness :
    (("tidy" : String) = "" ∨ jsTrim "tidy" ≠ "") ∧
    ((assembleParts (toServerRequest "tidy" (InputArtifact.pasted "hello"))
        (fun _ => "") (fun _ => "")).1).toOption =
      ((handleFormatAssemble (toClientState "tidy" (InputArtifact.pasted "hello"))
        (fun _ => "") (fun _ => "")).1).toOption :=
  ⟨Or.inr (by decide),
    server_client_equivalent_on_nonblank_inputs "tidy"
      (InputArtifact.pasted "hello") (fun _ => "") (fun _ => "")
      (Or.inr (by decide))
      (fun s hs => Or.inr (by cases hs; decide))⟩
